import Mathlib

/-!
Verification of src/ReportEngine/renderers/pdf_layout_optimizer.py.

Shallow embedding conventions:
* Python ints are Lean `Int`; Python strings are Lean `String`.
* The two float-valued configuration fields (`line_height` of `PageLayout` and
  `CalloutLayout`) only ever hold one-decimal values (1.6 / 1.8), so they are
  stored in tenths as `Int`; `floatStr` renders them the way Python `str`
  renders such floats.
* `_estimate_text_width` sums `font_size * factor` where the factors are the
  exact hundredths 1.00 / 0.55 / 0.60 / 0.40; we compute the width exactly in
  hundredth-pixels (`Int`), so `estimate_text_width text fs` equals 100 times
  the mathematical value of the Python sum.  Python's IEEE-754 accumulation
  can deviate from this exact value by ~1e-13, which is observable only at
  exact ties of the `>` comparison; no claim below depends on such a tie.
* Python's Unicode-wide `str.isalpha` / `str.isdigit` are modelled by the
  ASCII classifiers `Char.isAlpha` / `Char.isDigit`; the model is exact for
  ASCII text and for CJK ideographs (U+4E00..U+9FFF, which the source tests
  for before `isalpha`).
* Fallible Python code (AttributeError / TypeError / KeyError on malformed
  input) is modelled with `Except Unit`; `logger` output and the wall-clock
  timestamp of `_log_optimization` are not modelled.
-/

set_option maxHeartbeats 1000000
set_option maxRecDepth 100000

/-- Dataclass `KPICardLayout` (source lines 26-34), defaults as in the source. -/
structure KPICardLayout where
  font_size_value : Int := 32
  font_size_label : Int := 14
  font_size_change : Int := 13
  padding : Int := 20
  min_height : Int := 120
  value_max_length : Int := 10
deriving DecidableEq, Repr

/-- Dataclass `CalloutLayout` (source lines 37-44); `line_height` in tenths. -/
structure CalloutLayout where
  font_size_title : Int := 16
  font_size_content : Int := 14
  padding : Int := 20
  line_height : Int := 16
  max_width : String := "100%"
deriving DecidableEq, Repr

/-- Dataclass `TableLayout` (source lines 47-54). -/
structure TableLayout where
  font_size_header : Int := 13
  font_size_body : Int := 12
  cell_padding : Int := 12
  max_cell_width : Int := 200
  overflow_strategy : String := "wrap"
deriving DecidableEq, Repr

/-- Dataclass `ChartLayout` (source lines 57-64). -/
structure ChartLayout where
  font_size_title : Int := 16
  font_size_label : Int := 12
  min_height : Int := 300
  max_height : Int := 600
  padding : Int := 20
deriving DecidableEq, Repr

/-- Dataclass `GridLayout` (source lines 67-72). -/
structure GridLayout where
  columns : Int := 2
  gap : Int := 20
  responsive_breakpoint : Int := 768
deriving DecidableEq, Repr

/-- Dataclass `PageLayout` (source lines 75-87); `line_height` in tenths. -/
structure PageLayout where
  font_size_base : Int := 14
  font_size_h1 : Int := 28
  font_size_h2 : Int := 24
  font_size_h3 : Int := 20
  font_size_h4 : Int := 16
  line_height : Int := 16
  paragraph_spacing : Int := 16
  section_spacing : Int := 32
  page_padding : Int := 40
  max_content_width : Int := 800
deriving DecidableEq, Repr

/-- Dataclass `PDFLayoutConfig` (source lines 90-104). -/
structure PDFLayoutConfig where
  page : PageLayout
  kpi_card : KPICardLayout
  callout : CalloutLayout
  table : TableLayout
  chart : ChartLayout
  grid : GridLayout
  auto_adjust_font_size : Bool := true
  auto_adjust_grid_columns : Bool := true
  prevent_orphan_headers : Bool := true
  optimize_for_print : Bool := true
deriving DecidableEq, Repr

/-- `PDFLayoutOptimizer._create_default_config` (source lines 165-175). -/
def create_default_config : PDFLayoutConfig :=
  { page := {}, kpi_card := {}, callout := {}, table := {}, chart := {}, grid := {} }

/-- Per-character width factor in hundredths: the dictionary `CHAR_WIDTH_FACTOR`
(source lines 148-153) together with the classification order of
`_estimate_text_width` (source lines 349-357): CJK range first, then
alphabetic, then digit, else symbol. -/
def charWidthFactor (c : Char) : Int :=
  if 0x4e00 ≤ c.toNat ∧ c.toNat ≤ 0x9fff then 100
  else if c.isAlpha then 55
  else if c.isDigit then 60
  else 40

/-- `PDFLayoutOptimizer._estimate_text_width` (source lines 334-359), in exact
hundredth-pixels (100 times the Python float result). -/
def estimate_text_width (text : String) (font_size : Int) : Int :=
  if text = "" then 0
  else text.data.foldl (fun w c => w + font_size * charWidthFactor c) 0

/-- `PDFLayoutOptimizer._check_text_overflow` (source lines 361-374):
`estimated_width > max_width`, both sides scaled to hundredth-pixels. -/
def check_text_overflow (text : String) (font_size : Int) (max_width : Int) : Bool :=
  estimate_text_width text font_size > max_width * 100

/-- Descending scan of `_calculate_safe_font_size` (source line 399):
try `fs`, `fs-1`, ..., for `k` candidates, returning the first one that does
not overflow. `k` is the length of Python's `range(max, min-1, -1)`. -/
def findFit (text : String) (max_width : Int) (fs : Int) : Nat → Option Int
  | 0 => none
  | k + 1 =>
    if check_text_overflow text fs max_width then findFit text max_width (fs - 1) k
    else some fs

/-- `PDFLayoutOptimizer._calculate_safe_font_size` (source lines 376-406).
The source's default bounds (10, 32) are always overridden at its call site,
so the bounds are plain arguments here. -/
def calculate_safe_font_size (text : String) (max_width : Int)
    (min_font_size : Int) (max_font_size : Int) : Int × Bool :=
  if text = "" then (max_font_size, false)
  else
    match findFit text max_width max_font_size (max_font_size - min_font_size + 1).toNat with
    | some fs => (fs, decide (fs < max_font_size))
    | none => (min_font_size, true)

/-- The mutable stats dictionary initialised in `_analyze_document`
(source lines 212-222). -/
structure DocumentStats where
  kpi_count : Nat := 0
  table_count : Nat := 0
  chart_count : Nat := 0
  callout_count : Nat := 0
  max_kpi_value_length : Nat := 0
  max_table_columns : Nat := 0
  max_table_rows : Nat := 0
  total_content_length : Nat := 0
  has_long_text : Bool := false
deriving DecidableEq, Repr

/-- JSON-like Python values: the IR trees consumed by the analyzer and the
dictionaries produced by `to_dict`.  Floats are restricted to one-decimal
values stored in tenths (`float10`), which covers every float the program
creates. -/
inductive Val where
  | str (s : String)
  | int (n : Int)
  | float10 (n : Int)
  | bool (b : Bool)
  | pynone
  | list (xs : List Val)
  | dict (xs : List (String × Val))
deriving Repr

/-- First-match association-list lookup: Python `dict` access on the
(unique-key) dictionaries we model. -/
def alistLookup : List (String × Val) → String → Option Val
  | [], _ => none
  | (k, v) :: rest, key => if k = key then some v else alistLookup rest key

/-- Python `dict.get(key, default)` on a value already known to be a dict. -/
def dictGetD (xs : List (String × Val)) (key : String) (dflt : Val) : Val :=
  (alistLookup xs key).getD dflt

/-- Python truthiness of a value (`if v:`). -/
def pyTruthy : Val → Bool
  | .str s => !s.isEmpty
  | .int n => decide (n ≠ 0)
  | .float10 n => decide (n ≠ 0)
  | .bool b => b
  | .pynone => false
  | .list xs => !xs.isEmpty
  | .dict xs => !xs.isEmpty

/-- Python `len(v)`: defined for strings, lists and dicts, `TypeError`
otherwise. -/
def pyLen : Val → Except Unit Nat
  | .str s => .ok s.length
  | .list xs => .ok xs.length
  | .dict xs => .ok xs.length
  | _ => .error ()

/-- Python iteration `for x in v`: lists yield elements, strings yield their
characters as one-character strings, dicts yield their keys; anything else
raises `TypeError`. -/
def pyIter : Val → Except Unit (List Val)
  | .list xs => .ok xs
  | .str s => .ok (s.data.map fun c => .str (String.singleton c))
  | .dict xs => .ok (xs.map fun kv => .str kv.1)
  | _ => .error ()

/-- Escape one character the way Python `repr` escapes it inside a string
quoted by `quote` (backslash, the quote char, and the common control
characters; rarer `\xNN` escapes are not modelled — no analyzed text uses
them). -/
def reprEscapeChar (quote : Char) (c : Char) : String :=
  if c = '\\' then "\\\\"
  else if c = quote then String.singleton '\\' ++ String.singleton c
  else if c = '\n' then "\\n"
  else if c = '\r' then "\\r"
  else if c = '\t' then "\\t"
  else String.singleton c

/-- Python `repr` of a string: single quotes unless the string contains a
single quote and no double quote. -/
def reprQuote (s : String) : String :=
  let q : Char := if s.data.contains '\'' ∧ ¬ s.data.contains '"' then '"' else '\''
  String.singleton q ++ String.join (s.data.map (reprEscapeChar q)) ++ String.singleton q

/-- Join with the separator Python uses inside list/dict reprs. -/
def joinComma : List String → String
  | [] => ""
  | [x] => x
  | x :: y :: rest => x ++ ", " ++ joinComma (y :: rest)

/-- Render `n` tenths the way Python `str` renders the corresponding
one-decimal float (`16 ↦ "1.6"`, `20 ↦ "2.0"`). -/
def floatStr (n : Int) : String :=
  (if n < 0 ∧ -10 < n then "-0" else toString (n / 10)) ++ "." ++ toString (n % 10).natAbs

mutual
/-- Python `repr` of a value. -/
def pyRepr : Val → String
  | .str s => reprQuote s
  | .int n => toString n
  | .float10 n => floatStr n
  | .bool b => if b then "True" else "False"
  | .pynone => "None"
  | .list xs => "[" ++ joinComma (pyReprList xs) ++ "]"
  | .dict xs => "\x7b" ++ joinComma (pyReprEntries xs) ++ "\x7d"

/-- `repr` of each element of a list. -/
def pyReprList : List Val → List String
  | [] => []
  | x :: xs => pyRepr x :: pyReprList xs

/-- `repr` of each `key: value` entry of a dict. -/
def pyReprEntries : List (String × Val) → List String
  | [] => []
  | (k, v) :: xs => (reprQuote k ++ ": " ++ pyRepr v) :: pyReprEntries xs
end

/-- Python `str(v)`: identity on strings, `repr` otherwise. -/
def pyStr : Val → String
  | .str s => s
  | v => pyRepr v

/-- Python `v[0]` for the `rows[0]` access (source line 274): first element of
a list or first character of a string; a dict raises `KeyError` (its keys are
strings, never the integer 0), other values raise `TypeError`. -/
def pyIndex0 : Val → Except Unit Val
  | .list (x :: _) => .ok x
  | .list [] => .error ()
  | .str s =>
    match s.data with
    | c :: _ => .ok (.str (String.singleton c))
    | [] => .error ()
  | _ => .error ()

/-- Python `v == "s"` for the `node_type` dispatch of `_analyze_block`:
true exactly when `v` is the string `s`. -/
def isStrVal (v : Val) (s : String) : Bool :=
  match v with
  | .str t => t == s
  | _ => false

/-- A value found by `alistLookup` is structurally smaller than the entry
list it came from (used for the termination of the tree traversal below). -/
theorem sizeOf_lt_of_alistLookup {xs : List (String × Val)} {key : String} {v : Val}
    (h : alistLookup xs key = some v) : sizeOf v < sizeOf xs := by
  induction xs with
  | nil => simp [alistLookup] at h
  | cons hd tl ih =>
    obtain ⟨k, w⟩ := hd
    simp only [alistLookup] at h
    split at h
    · cases h
      simp only [List.cons.sizeOf_spec, Prod.mk.sizeOf_spec]
      omega
    · have := ih h
      simp only [List.cons.sizeOf_spec, Prod.mk.sizeOf_spec]
      omega

/-- `PDFLayoutOptimizer._extract_text_from_paragraph` (source lines 316-327),
given the entries of the paragraph dict (every caller has already checked it
is a dict). -/
def extract_text_from_paragraph (pentries : List (String × Val)) : Except Unit String := do
  let inlines := dictGetD pentries ("inlines") (.list [])
  let xs ← pyIter inlines
  .ok (xs.foldl
    (fun acc inline =>
      match inline with
      | .dict ie =>
        let t := dictGetD ie ("text") (.str "")
        if pyTruthy t then acc ++ pyStr t else acc
      | .str s => acc ++ s
      | _ => acc)
    "")

/-- Per-item body of the `for kpi in kpis` loop of the `kpiGrid` branch
(source lines 261-266): a non-dict item raises `AttributeError` at
`kpi.get`. -/
def kpiItemUpdate (stats : DocumentStats) (kpi : Val) : Except Unit DocumentStats :=
  match kpi with
  | .dict kentries =>
    let value := pyStr (dictGetD kentries ("value") (.str ""))
    .ok { stats with max_kpi_value_length := max stats.max_kpi_value_length value.length }
  | _ => .error ()

/-- Per-item body of the `for cb in callout_blocks` loop of the `callout`
branch (source lines 298-302). -/
def calloutBlockCheck (stats : DocumentStats) (cb : Val) : Except Unit DocumentStats :=
  match cb with
  | .dict ce =>
    if isStrVal (dictGetD ce ("type") .pynone) ("paragraph") then do
      let text ← extract_text_from_paragraph ce
      .ok (if text.length > 200 then { stats with has_long_text := true } else stats)
    else .ok stats
  | _ => .ok stats

/-- The `node_type` dispatch of `_analyze_block` (source lines 254-308): the
non-recursive part of the block analysis, given the entries of the block
dict. -/
def analyzeBlockCore (entries : List (String × Val)) (stats : DocumentStats) :
    Except Unit DocumentStats := do
  let node_type := dictGetD entries ("type") .pynone
  if isStrVal node_type ("kpiGrid") then do
    let kpis := dictGetD entries ("items") (.list [])
    let n ← pyLen kpis
    let stats := { stats with kpi_count := stats.kpi_count + n }
    let items ← pyIter kpis
    items.foldlM kpiItemUpdate stats
  else if isStrVal node_type ("table") then do
    let stats := { stats with table_count := stats.table_count + 1 }
    let headers := dictGetD entries ("headers") (.list [])
    let rows := dictGetD entries ("rows") (.list [])
    let stats ←
      if pyTruthy rows then do
        let r0 ← pyIndex0 rows
        match r0 with
        | .dict rentries => do
          let cells := dictGetD rentries ("cells") (.list [])
          let ncells ← pyLen cells
          pure { stats with max_table_columns := max stats.max_table_columns ncells }
        | _ => do
          let nh ← pyLen headers
          pure { stats with max_table_columns := max stats.max_table_columns nh }
      else do
        let nh ← pyLen headers
        pure { stats with max_table_columns := max stats.max_table_columns nh }
    let nr ← pyLen rows
    .ok { stats with max_table_rows := max stats.max_table_rows nr }
  else if isStrVal node_type ("chart") || isStrVal node_type ("widget") then
    .ok { stats with chart_count := stats.chart_count + 1 }
  else if isStrVal node_type ("callout") then do
    let stats := { stats with callout_count := stats.callout_count + 1 }
    let callout_blocks := dictGetD entries ("blocks") (.list [])
    let cbs ← pyIter callout_blocks
    cbs.foldlM calloutBlockCheck stats
  else if isStrVal node_type ("paragraph") then do
    let text ← extract_text_from_paragraph entries
    let stats := { stats with total_content_length := stats.total_content_length + text.length }
    .ok (if text.length > 500 then { stats with has_long_text := true } else stats)
  else
    .ok stats

mutual
/-- `PDFLayoutOptimizer._analyze_block` (source lines 249-314): the type
dispatch (`analyzeBlockCore`) followed by recursion into
`block.get('blocks', [])`.  Iterating a string or a dict yields only strings
(characters / keys), each of which the recursive call would skip at its
`isinstance(block, dict)` check, so those cases return the stats unchanged
without an explicit loop. -/
def analyze_block (block : Val) (stats : DocumentStats) : Except Unit DocumentStats :=
  match block with
  | .dict entries => do
    let stats ← analyzeBlockCore entries stats
    match hlk : alistLookup entries ("blocks") with
    | none => .ok stats
    | some nested =>
      if pyTruthy nested then
        match nested with
        | .list xs => analyzeBlockList xs stats
        | .str _ => .ok stats
        | .dict _ => .ok stats
        | _ => .error ()
      else .ok stats
  | _ => .ok stats
termination_by sizeOf block
decreasing_by
  have h1 := sizeOf_lt_of_alistLookup hlk
  simp only [Val.list.sizeOf_spec] at h1
  simp only [Val.dict.sizeOf_spec]
  omega

/-- The `for nested in nested_blocks` loop of `_analyze_block`
(source lines 313-314). -/
def analyzeBlockList (xs : List Val) (stats : DocumentStats) : Except Unit DocumentStats :=
  match xs with
  | [] => .ok stats
  | x :: rest => do
    let s ← analyze_block x stats
    analyzeBlockList rest s
termination_by sizeOf xs
decreasing_by
  all_goals simp only [List.cons.sizeOf_spec]
  all_goals omega
end

mutual
/-- `PDFLayoutOptimizer._analyze_chapter` (source lines 236-247): analyze the
chapter's blocks, then recurse into those children that are dicts.  A
non-dict chapter raises `AttributeError` at `chapter.get`.  As in
`analyze_block`, iterating a string or dict for `children` yields only
strings, none of which pass the `isinstance(child, dict)` guard. -/
def analyze_chapter (chapter : Val) (stats : DocumentStats) : Except Unit DocumentStats :=
  match chapter with
  | .dict entries => do
    let stats ← (do
      let blocks ← pyIter (dictGetD entries ("blocks") (.list []))
      analyzeBlockList blocks stats)
    match hlk : alistLookup entries ("children") with
    | none => .ok stats
    | some children =>
      match children with
      | .list xs => analyzeChapterList xs stats
      | .str _ => .ok stats
      | .dict _ => .ok stats
      | _ => .error ()
  | _ => .error ()
termination_by sizeOf chapter
decreasing_by
  have h1 := sizeOf_lt_of_alistLookup hlk
  simp only [Val.list.sizeOf_spec] at h1
  simp only [Val.dict.sizeOf_spec]
  omega

/-- The `for child in children` loop of `_analyze_chapter`
(source lines 245-247), with its `isinstance(child, dict)` guard. -/
def analyzeChapterList (xs : List Val) (stats : DocumentStats) : Except Unit DocumentStats :=
  match xs with
  | [] => .ok stats
  | x :: rest => do
    let s ←
      match x with
      | .dict centries => analyze_chapter (.dict centries) stats
      | _ => .ok stats
    analyzeChapterList rest s
termination_by sizeOf xs
decreasing_by
  all_goals simp only [List.cons.sizeOf_spec]
  all_goals omega
end

/-- `PDFLayoutOptimizer._analyze_document` (source lines 200-234): fresh zero
stats, `chapters` with fallback to `sections`, then one `_analyze_chapter`
call per element (no isinstance guard at this level). -/
def analyze_document (document_ir : Val) : Except Unit DocumentStats :=
  match document_ir with
  | .dict entries => do
    let chapters := dictGetD entries ("chapters") (.list [])
    let chapters :=
      if pyTruthy chapters then chapters else dictGetD entries ("sections") (.list [])
    let items ← pyIter chapters
    items.foldlM (fun s c => analyze_chapter c s) ({} : DocumentStats)
  | _ => .error ()

/-- `PDFLayoutOptimizer._detect_kpi_overflow_issues` (source lines 408-437);
`kpi_card_width = (800 - 20) // 2 - 40`.  Its result is only ever passed to
`logger.warning`. -/
def detect_kpi_overflow_issues (config : PDFLayoutConfig) (stats : DocumentStats) :
    List String :=
  let kpi_card_width : Int := (800 - 20) / 2 - 40
  if stats.max_kpi_value_length > 0 then
    let sample_text := String.mk (List.replicate stats.max_kpi_value_length '1') ++ "亿元"
    let current_font_size := config.kpi_card.font_size_value
    if check_text_overflow sample_text current_font_size kpi_card_width then
      ["KPI数值过长(" ++ toString stats.max_kpi_value_length ++ "字符)，字号"
        ++ toString current_font_size ++ "px可能导致溢出"]
    else []
  else []

/-- Rule block `if stats['max_kpi_value_length'] > 0` of
`_adjust_config_based_on_stats` (source lines 463-489):
`kpi_card_width = (800 - 20) // 2 - 40 = 350`, sample text of repeated `'9'`,
solver bounds [18, 32]. -/
def applyKpiFontSizeRule (stats : DocumentStats) :
    PDFLayoutConfig × List String → PDFLayoutConfig × List String :=
  fun cl =>
    let config := cl.1
    let log := cl.2
    if stats.max_kpi_value_length > 0 then
      let sample_text := String.mk (List.replicate stats.max_kpi_value_length '9')
      let r := calculate_safe_font_size sample_text ((800 - 20) / 2 - 40) 18 32
      if r.2 then
        ({ config with kpi_card := { config.kpi_card with font_size_value := r.1 } },
          log ++ ["KPI数值过长(" ++ toString stats.max_kpi_value_length
            ++ "字符)，字号自动调整为" ++ toString r.1 ++ "px以防止溢出"])
      else if stats.max_kpi_value_length > 10 then
        let newv := min 28 r.1
        ({ config with kpi_card := { config.kpi_card with font_size_value := newv } },
          log ++ ["KPI数值较长(" ++ toString stats.max_kpi_value_length
            ++ "字符)，预防性调整字号为" ++ toString newv ++ "px"])
      else (config, log)
    else (config, log)

/-- Rule block on `stats['kpi_count']` of `_adjust_config_based_on_stats`
(source lines 491-512): the `> 6` / `> 4` / `<= 2` elif-chain. -/
def applyGridColumnsRule (stats : DocumentStats) :
    PDFLayoutConfig × List String → PDFLayoutConfig × List String :=
  fun cl =>
    let config := cl.1
    let log := cl.2
    if stats.kpi_count > 6 then
      ({ config with
          grid := { config.grid with columns := 3 }
          kpi_card := { config.kpi_card with min_height := 100, padding := 16 } },
        log ++ ["KPI卡片较多(" ++ toString stats.kpi_count ++ "个)，调整为3列布局并缩小内边距"])
    else if stats.kpi_count > 4 then
      ({ config with
          grid := { config.grid with columns := 2 }
          kpi_card := { config.kpi_card with padding := 18 } },
        log ++ ["KPI卡片适中(" ++ toString stats.kpi_count ++ "个)，使用2列布局"])
    else if stats.kpi_count ≤ 2 then
      ({ config with
          grid := { config.grid with columns := 1 }
          kpi_card := { config.kpi_card with padding := 24 } },
        log ++ ["KPI卡片较少(" ++ toString stats.kpi_count ++ "个)，使用1列布局并增加内边距"])
    else (config, log)

/-- Rule block on `stats['max_table_columns']` of
`_adjust_config_based_on_stats` (source lines 514-538). -/
def applyTableColumnsRule (stats : DocumentStats) :
    PDFLayoutConfig × List String → PDFLayoutConfig × List String :=
  fun cl =>
    let config := cl.1
    let log := cl.2
    if stats.max_table_columns > 8 then
      ({ config with table := { config.table with
          font_size_header := 10, font_size_body := 9, cell_padding := 6 } },
        log ++ ["表格列数很多(" ++ toString stats.max_table_columns ++ "列)，大幅缩小字号和内边距"])
    else if stats.max_table_columns > 6 then
      ({ config with table := { config.table with
          font_size_header := 11, font_size_body := 10, cell_padding := 8 } },
        log ++ ["表格列数较多(" ++ toString stats.max_table_columns ++ "列)，缩小字号和内边距"])
    else if stats.max_table_columns > 4 then
      ({ config with table := { config.table with
          font_size_header := 12, font_size_body := 11, cell_padding := 10 } },
        log ++ ["表格列数适中(" ++ toString stats.max_table_columns ++ "列)，适度调整字号"])
    else (config, log)

/-- Rule block `if stats['has_long_text']` of `_adjust_config_based_on_stats`
(source lines 540-547); line heights set to 1.8 (18 tenths). -/
def applyLongTextRule (stats : DocumentStats) :
    PDFLayoutConfig × List String → PDFLayoutConfig × List String :=
  fun cl =>
    let config := cl.1
    let log := cl.2
    if stats.has_long_text then
      ({ config with
          page := { config.page with line_height := 18, paragraph_spacing := 18 }
          callout := { config.callout with line_height := 18 } },
        log ++ ["检测到长文本，增加行高至1.8和段落间距以提高可读性"])
    else (config, log)

/-- Rule block on `total_blocks` of `_adjust_config_based_on_stats`
(source lines 549-559). -/
def applyDenseContentRule (stats : DocumentStats) :
    PDFLayoutConfig × List String → PDFLayoutConfig × List String :=
  fun cl =>
    let config := cl.1
    let log := cl.2
    let total_blocks :=
      stats.kpi_count + stats.table_count + stats.chart_count + stats.callout_count
    if total_blocks > 20 then
      ({ config with page := { config.page with
          font_size_base := 13, font_size_h2 := 22, font_size_h3 := 18 } },
        log ++ ["内容块较多(" ++ toString total_blocks ++ "个)，适度缩小整体字号以优化排版"])
    else (config, log)

/-- `PDFLayoutOptimizer._adjust_config_based_on_stats` (source lines 439-561):
starts from a fresh field-by-field copy of `self.config` (lines 444-455,
which at this value level is the baseline value itself), then applies the
five rule blocks in source order, each appending its log message.
`_detect_kpi_overflow_issues` is invoked there (lines 457-461) only to emit
`logger.warning` output, which is not modelled, so it is not called here. -/
def adjust_config_based_on_stats (baseline : PDFLayoutConfig) (stats : DocumentStats) :
    PDFLayoutConfig × List String :=
  applyDenseContentRule stats (applyLongTextRule stats (applyTableColumnsRule stats
    (applyGridColumnsRule stats (applyKpiFontSizeRule stats (baseline, [])))))

/-- `dataclasses.asdict` of `PageLayout`, fields in declaration order. -/
def pageToDict (p : PageLayout) : Val :=
  .dict [("font_size_base", .int p.font_size_base), ("font_size_h1", .int p.font_size_h1),
    ("font_size_h2", .int p.font_size_h2), ("font_size_h3", .int p.font_size_h3),
    ("font_size_h4", .int p.font_size_h4), ("line_height", .float10 p.line_height),
    ("paragraph_spacing", .int p.paragraph_spacing), ("section_spacing", .int p.section_spacing),
    ("page_padding", .int p.page_padding), ("max_content_width", .int p.max_content_width)]

/-- `dataclasses.asdict` of `KPICardLayout`. -/
def kpiCardToDict (k : KPICardLayout) : Val :=
  .dict [("font_size_value", .int k.font_size_value), ("font_size_label", .int k.font_size_label),
    ("font_size_change", .int k.font_size_change), ("padding", .int k.padding),
    ("min_height", .int k.min_height), ("value_max_length", .int k.value_max_length)]

/-- `dataclasses.asdict` of `CalloutLayout`. -/
def calloutToDict (c : CalloutLayout) : Val :=
  .dict [("font_size_title", .int c.font_size_title), ("font_size_content", .int c.font_size_content),
    ("padding", .int c.padding), ("line_height", .float10 c.line_height),
    ("max_width", .str c.max_width)]

/-- `dataclasses.asdict` of `TableLayout`. -/
def tableToDict (t : TableLayout) : Val :=
  .dict [("font_size_header", .int t.font_size_header), ("font_size_body", .int t.font_size_body),
    ("cell_padding", .int t.cell_padding), ("max_cell_width", .int t.max_cell_width),
    ("overflow_strategy", .str t.overflow_strategy)]

/-- `dataclasses.asdict` of `ChartLayout`. -/
def chartToDict (c : ChartLayout) : Val :=
  .dict [("font_size_title", .int c.font_size_title), ("font_size_label", .int c.font_size_label),
    ("min_height", .int c.min_height), ("max_height", .int c.max_height),
    ("padding", .int c.padding)]

/-- `dataclasses.asdict` of `GridLayout`. -/
def gridToDict (g : GridLayout) : Val :=
  .dict [("columns", .int g.columns), ("gap", .int g.gap),
    ("responsive_breakpoint", .int g.responsive_breakpoint)]

/-- `PDFLayoutConfig.to_dict` (source lines 106-119). -/
def to_dict (c : PDFLayoutConfig) : Val :=
  .dict [("page", pageToDict c.page), ("kpi_card", kpiCardToDict c.kpi_card),
    ("callout", calloutToDict c.callout), ("table", tableToDict c.table),
    ("chart", chartToDict c.chart), ("grid", gridToDict c.grid),
    ("auto_adjust_font_size", .bool c.auto_adjust_font_size),
    ("auto_adjust_grid_columns", .bool c.auto_adjust_grid_columns),
    ("prevent_orphan_headers", .bool c.prevent_orphan_headers),
    ("optimize_for_print", .bool c.optimize_for_print)]

/-- Extract a Python int.  Python dataclasses do not type-check constructor
arguments, so a wrong-typed value would be accepted there and produce a
wrong-typed configuration; in this typed embedding such a value is an error.
None of the claims exercises that divergence: `to_dict` output is always
well-typed. -/
def getInt : Val → Except Unit Int
  | .int n => .ok n
  | _ => .error ()

/-- Extract a one-decimal float (tenths); see `getInt` on typing. -/
def getFloat10 : Val → Except Unit Int
  | .float10 n => .ok n
  | _ => .error ()

/-- Extract a Python str; see `getInt` on typing. -/
def getStr : Val → Except Unit String
  | .str s => .ok s
  | _ => .error ()

/-- Extract a Python bool; see `getInt` on typing. -/
def getBool : Val → Except Unit Bool
  | .bool b => .ok b
  | _ => .error ()

/-- Keyword argument with a dataclass default: the field's value if the key
is present, the default otherwise. -/
def getIntD (xs : List (String × Val)) (key : String) (dflt : Int) : Except Unit Int :=
  match alistLookup xs key with
  | none => .ok dflt
  | some v => getInt v

/-- Like `getIntD` for the tenths-encoded float fields. -/
def getFloat10D (xs : List (String × Val)) (key : String) (dflt : Int) : Except Unit Int :=
  match alistLookup xs key with
  | none => .ok dflt
  | some v => getFloat10 v

/-- Like `getIntD` for str fields. -/
def getStrD (xs : List (String × Val)) (key : String) (dflt : String) : Except Unit String :=
  match alistLookup xs key with
  | none => .ok dflt
  | some v => getStr v

/-- Like `getIntD` for bool fields; used for `data.get(flag, True)`. -/
def getBoolD (xs : List (String × Val)) (key : String) (dflt : Bool) : Except Unit Bool :=
  match alistLookup xs key with
  | none => .ok dflt
  | some v => getBool v

/-- `PageLayout(**d)`: unknown keyword arguments raise `TypeError`; missing
ones take the dataclass defaults. -/
def fromDictPage (v : Val) : Except Unit PageLayout :=
  match v with
  | .dict xs =>
    if xs.all (fun kv => ["font_size_base", "font_size_h1", "font_size_h2", "font_size_h3",
        "font_size_h4", "line_height", "paragraph_spacing", "section_spacing",
        "page_padding", "max_content_width"].contains kv.1) then do
      let font_size_base ← getIntD xs ("font_size_base") 14
      let font_size_h1 ← getIntD xs ("font_size_h1") 28
      let font_size_h2 ← getIntD xs ("font_size_h2") 24
      let font_size_h3 ← getIntD xs ("font_size_h3") 20
      let font_size_h4 ← getIntD xs ("font_size_h4") 16
      let line_height ← getFloat10D xs ("line_height") 16
      let paragraph_spacing ← getIntD xs ("paragraph_spacing") 16
      let section_spacing ← getIntD xs ("section_spacing") 32
      let page_padding ← getIntD xs ("page_padding") 40
      let max_content_width ← getIntD xs ("max_content_width") 800
      .ok ⟨font_size_base, font_size_h1, font_size_h2, font_size_h3, font_size_h4,
        line_height, paragraph_spacing, section_spacing, page_padding, max_content_width⟩
    else .error ()
  | _ => .error ()

/-- `KPICardLayout(**d)`; see `fromDictPage`. -/
def fromDictKpiCard (v : Val) : Except Unit KPICardLayout :=
  match v with
  | .dict xs =>
    if xs.all (fun kv => ["font_size_value", "font_size_label", "font_size_change",
        "padding", "min_height", "value_max_length"].contains kv.1) then do
      let font_size_value ← getIntD xs ("font_size_value") 32
      let font_size_label ← getIntD xs ("font_size_label") 14
      let font_size_change ← getIntD xs ("font_size_change") 13
      let padding ← getIntD xs ("padding") 20
      let min_height ← getIntD xs ("min_height") 120
      let value_max_length ← getIntD xs ("value_max_length") 10
      .ok ⟨font_size_value, font_size_label, font_size_change, padding, min_height,
        value_max_length⟩
    else .error ()
  | _ => .error ()

/-- `CalloutLayout(**d)`; see `fromDictPage`. -/
def fromDictCallout (v : Val) : Except Unit CalloutLayout :=
  match v with
  | .dict xs =>
    if xs.all (fun kv => ["font_size_title", "font_size_content", "padding",
        "line_height", "max_width"].contains kv.1) then do
      let font_size_title ← getIntD xs ("font_size_title") 16
      let font_size_content ← getIntD xs ("font_size_content") 14
      let padding ← getIntD xs ("padding") 20
      let line_height ← getFloat10D xs ("line_height") 16
      let max_width ← getStrD xs ("max_width") ("100%")
      .ok ⟨font_size_title, font_size_content, padding, line_height, max_width⟩
    else .error ()
  | _ => .error ()

/-- `TableLayout(**d)`; see `fromDictPage`. -/
def fromDictTable (v : Val) : Except Unit TableLayout :=
  match v with
  | .dict xs =>
    if xs.all (fun kv => ["font_size_header", "font_size_body", "cell_padding",
        "max_cell_width", "overflow_strategy"].contains kv.1) then do
      let font_size_header ← getIntD xs ("font_size_header") 13
      let font_size_body ← getIntD xs ("font_size_body") 12
      let cell_padding ← getIntD xs ("cell_padding") 12
      let max_cell_width ← getIntD xs ("max_cell_width") 200
      let overflow_strategy ← getStrD xs ("overflow_strategy") ("wrap")
      .ok ⟨font_size_header, font_size_body, cell_padding, max_cell_width, overflow_strategy⟩
    else .error ()
  | _ => .error ()

/-- `ChartLayout(**d)`; see `fromDictPage`. -/
def fromDictChart (v : Val) : Except Unit ChartLayout :=
  match v with
  | .dict xs =>
    if xs.all (fun kv => ["font_size_title", "font_size_label", "min_height",
        "max_height", "padding"].contains kv.1) then do
      let font_size_title ← getIntD xs ("font_size_title") 16
      let font_size_label ← getIntD xs ("font_size_label") 12
      let min_height ← getIntD xs ("min_height") 300
      let max_height ← getIntD xs ("max_height") 600
      let padding ← getIntD xs ("padding") 20
      .ok ⟨font_size_title, font_size_label, min_height, max_height, padding⟩
    else .error ()
  | _ => .error ()

/-- `GridLayout(**d)`; see `fromDictPage`. -/
def fromDictGrid (v : Val) : Except Unit GridLayout :=
  match v with
  | .dict xs =>
    if xs.all (fun kv => ["columns", "gap", "responsive_breakpoint"].contains kv.1) then do
      let columns ← getIntD xs ("columns") 2
      let gap ← getIntD xs ("gap") 20
      let responsive_breakpoint ← getIntD xs ("responsive_breakpoint") 768
      .ok ⟨columns, gap, responsive_breakpoint⟩
    else .error ()
  | _ => .error ()

/-- `PDFLayoutConfig.from_dict` (source lines 121-135): the six sub-dicts are
required (`data['page']` raises `KeyError` when absent), the four flags
default to `True` via `data.get`. -/
def from_dict (data : Val) : Except Unit PDFLayoutConfig :=
  match data with
  | .dict xs => do
    let pageV ← match alistLookup xs ("page") with | some v => .ok v | none => .error ()
    let page ← fromDictPage pageV
    let kpiV ← match alistLookup xs ("kpi_card") with | some v => .ok v | none => .error ()
    let kpi_card ← fromDictKpiCard kpiV
    let calloutV ← match alistLookup xs ("callout") with | some v => .ok v | none => .error ()
    let callout ← fromDictCallout calloutV
    let tableV ← match alistLookup xs ("table") with | some v => .ok v | none => .error ()
    let table ← fromDictTable tableV
    let chartV ← match alistLookup xs ("chart") with | some v => .ok v | none => .error ()
    let chart ← fromDictChart chartV
    let gridV ← match alistLookup xs ("grid") with | some v => .ok v | none => .error ()
    let grid ← fromDictGrid gridV
    let auto_adjust_font_size ← getBoolD xs ("auto_adjust_font_size") true
    let auto_adjust_grid_columns ← getBoolD xs ("auto_adjust_grid_columns") true
    let prevent_orphan_headers ← getBoolD xs ("prevent_orphan_headers") true
    let optimize_for_print ← getBoolD xs ("optimize_for_print") true
    .ok ⟨page, kpi_card, callout, table, chart, grid, auto_adjust_font_size,
      auto_adjust_grid_columns, prevent_orphan_headers, optimize_for_print⟩
  | _ => .error ()

/-- The optimizer's state: `self.config` and `self.optimization_log`
(`__init__`, source lines 155-163; `config or self._create_default_config()`
always keeps a supplied config, since a dataclass instance is truthy). -/
structure PDFLayoutOptimizer where
  config : PDFLayoutConfig
  optimization_log : List String
deriving DecidableEq, Repr

/-- `PDFLayoutOptimizer.__init__` with an explicit config. -/
def mkOptimizer (config : PDFLayoutConfig) : PDFLayoutOptimizer :=
  ⟨config, []⟩

/-- The `log_entry` dict built by `_log_optimization` (source lines 569-574),
minus its `datetime.now()` timestamp, which is wall-clock input outside this
embedding. -/
structure OptimizationLogEntry where
  document_stats : DocumentStats
  optimizations : List String
  final_config : Val
deriving Repr

/-- `PDFLayoutOptimizer._log_optimization` (source lines 563-583): builds the
entry from a copy of the current log, then clears the log for the next run,
and returns the entry. -/
def log_optimization (st : PDFLayoutOptimizer) (stats : DocumentStats)
    (config : PDFLayoutConfig) : PDFLayoutOptimizer × OptimizationLogEntry :=
  ({ st with optimization_log := [] },
    ⟨stats, st.optimization_log, to_dict config⟩)

/-- `PDFLayoutOptimizer.optimize_for_document` (source lines 177-198):
analyze, adjust (appending the rule messages to `self.optimization_log`),
log.  The source calls `_log_optimization` only for its side effects and
drops the returned entry; the entry is surfaced here so that properties
about it can be stated. -/
def optimize_for_document (st : PDFLayoutOptimizer) (document_ir : Val) :
    Except Unit (PDFLayoutOptimizer × PDFLayoutConfig × OptimizationLogEntry) := do
  let stats ← analyze_document document_ir
  let (optimized_config, msgs) := adjust_config_based_on_stats st.config stats
  let st := { st with optimization_log := st.optimization_log ++ msgs }
  let (st, log_entry) := log_optimization st stats optimized_config
  .ok (st, optimized_config, log_entry)

/-- `PDFLayoutOptimizer.save_config` (source lines 585-606): the JSON value
written to `path`.  File I/O and parent-directory creation are not modelled;
`json.dump`/`json.load` round-trip every value shape this program writes, so
the file is identified with the value. -/
def save_config (path : String) (st : PDFLayoutOptimizer) (log_entry : Option Val) : Val :=
  .dict (("config", to_dict st.config) ::
    (match log_entry with
     | some e => [("optimization_log", e)]
     | none => []))

/-- `PDFLayoutOptimizer.load_config` (source lines 608-632): `none` models a
missing file (default config with a warning); otherwise `data['config']`
(`KeyError`/`TypeError` when absent or not a dict) is parsed by
`from_dict`. -/
def load_config (file : Option Val) : Except Unit PDFLayoutOptimizer :=
  match file with
  | none => .ok (mkOptimizer create_default_config)
  | some data =>
    match data with
    | .dict xs => do
      let cfgV ← match alistLookup xs ("config") with | some v => .ok v | none => .error ()
      let config ← from_dict cfgV
      .ok (mkOptimizer config)
    | _ => .error ()

/-- `PDFLayoutOptimizer.generate_pdf_css` (source lines 634-864): the CSS
f-string rendered from the configuration.  The template is reproduced
verbatim (literal braces written as escapes); it is split into concatenation
pieces exactly at the interpolation points so that containment proofs can
address each interpolated declaration.  `toString` on `Int` and `floatStr`
on the tenths-encoded line heights render values as Python `str` does. -/
def generate_pdf_css (cfg : PDFLayoutConfig) : String :=
  "\n/* PDF布局优化样式 - 由PDFLayoutOptimizer自动生成 */\n\n/* 页面基础样式 */\nbody \x7b\n"
  ++ "    font-size: "
  ++ toString cfg.page.font_size_base
  ++ "px"
  ++ ";\n"
  ++ "    line-height: "
  ++ floatStr cfg.page.line_height
  ++ ";"
  ++ "\n\x7d\n\nmain \x7b\n"
  ++ "    padding: "
  ++ toString cfg.page.page_padding
  ++ "px"
  ++ " !important;\n"
  ++ "    max-width: "
  ++ toString cfg.page.max_content_width
  ++ "px"
  ++ ";\n    margin: 0 auto;\n\x7d\n\n/* 标题样式 */\n"
  ++ "h1 \x7b font-size: "
  ++ toString cfg.page.font_size_h1
  ++ "px"
  ++ " !important; \x7d\n"
  ++ "h2 \x7b font-size: "
  ++ toString cfg.page.font_size_h2
  ++ "px"
  ++ " !important; \x7d\n"
  ++ "h3 \x7b font-size: "
  ++ toString cfg.page.font_size_h3
  ++ "px"
  ++ " !important; \x7d\n"
  ++ "h4 \x7b font-size: "
  ++ toString cfg.page.font_size_h4
  ++ "px"
  ++ " !important; \x7d\n\n/* 段落间距 */\np \x7b\n"
  ++ "    margin-bottom: "
  ++ toString cfg.page.paragraph_spacing
  ++ "px"
  ++ ";\n\x7d\n\n.chapter \x7b\n"
  ++ "    margin-bottom: "
  ++ toString cfg.page.section_spacing
  ++ "px"
  ++ ";\n\x7d\n\n/* KPI卡片优化 - 防止溢出 */\n.kpi-grid \x7b\n    display: grid;\n"
  ++ "    grid-template-columns: repeat("
  ++ toString cfg.grid.columns
  ++ ", 1fr)"
  ++ ";\n"
  ++ "    gap: "
  ++ toString cfg.grid.gap
  ++ "px"
  ++ ";\n    margin: 20px 0;\n\x7d\n\n"
  ++ ".kpi-card \x7b\n"
  ++ "    padding: "
  ++ toString cfg.kpi_card.padding
  ++ "px"
  ++ " !important;\n"
  ++ "    min-height: "
  ++ toString cfg.kpi_card.min_height
  ++ "px"
  ++ ";\n    break-inside: avoid;\n    page-break-inside: avoid;\n    /* 防止溢出的关键设置 */\n    overflow: hidden;\n    box-sizing: border-box;\n    max-width: 100%;\n\x7d\n\n"
  ++ ".kpi-card .value \x7b\n"
  ++ "    font-size: "
  ++ toString cfg.kpi_card.font_size_value
  ++ "px"
  ++ " !important;\n    line-height: 1.2;\n    /* 强制换行和溢出控制 */\n    word-break: break-word;\n    overflow-wrap: break-word;\n    hyphens: auto;\n    max-width: 100%;\n    overflow: hidden;\n    text-overflow: ellipsis;\n\x7d\n\n"
  ++ ".kpi-card .label \x7b\n"
  ++ "    font-size: "
  ++ toString cfg.kpi_card.font_size_label
  ++ "px"
  ++ " !important;\n    /* 防止标签溢出 */\n    word-break: break-word;\n    overflow-wrap: break-word;\n    max-width: 100%;\n\x7d\n\n.kpi-card .change \x7b\n"
  ++ "    font-size: "
  ++ toString cfg.kpi_card.font_size_change
  ++ "px"
  ++ " !important;\n    word-break: break-word;\n\x7d\n\n/* 提示框优化 - 防止溢出 */\n.callout \x7b\n"
  ++ "    padding: "
  ++ toString cfg.callout.padding
  ++ "px"
  ++ " !important;\n    margin: 20px 0;\n"
  ++ "    line-height: "
  ++ floatStr cfg.callout.line_height
  ++ ";"
  ++ "\n    break-inside: avoid;\n    page-break-inside: avoid;\n    /* 防止溢出 */\n    overflow: hidden;\n    box-sizing: border-box;\n    max-width: 100%;\n\x7d\n\n.callout-title \x7b\n"
  ++ "    font-size: "
  ++ toString cfg.callout.font_size_title
  ++ "px"
  ++ " !important;\n    margin-bottom: 10px;\n    word-break: break-word;\n\x7d\n\n.callout-content \x7b\n"
  ++ "    font-size: "
  ++ toString cfg.callout.font_size_content
  ++ "px"
  ++ " !important;\n    word-break: break-word;\n    overflow-wrap: break-word;\n\x7d\n\n/* 表格优化 - 严格防止溢出 */\ntable \x7b\n    width: 100%;\n    break-inside: avoid;\n    page-break-inside: avoid;\n    /* 表格布局固定 */\n    table-layout: fixed;\n    max-width: 100%;\n    overflow: hidden;\n\x7d\n\n"
  ++ "th \x7b\n"
  ++ "    font-size: "
  ++ toString cfg.table.font_size_header
  ++ "px"
  ++ " !important;\n"
  ++ "    padding: "
  ++ toString cfg.table.cell_padding
  ++ "px"
  ++ " !important;\n    /* 表头文字控制 */\n    word-break: break-word;\n    overflow-wrap: break-word;\n    hyphens: auto;\n    max-width: 100%;\n\x7d\n\n"
  ++ "td \x7b\n"
  ++ "    font-size: "
  ++ toString cfg.table.font_size_body
  ++ "px"
  ++ " !important;\n"
  ++ "    padding: "
  ++ toString cfg.table.cell_padding
  ++ "px"
  ++ " !important;\n"
  ++ "    max-width: "
  ++ toString cfg.table.max_cell_width
  ++ "px"
  ++ ";\n    /* 强制换行，防止溢出 */\n    word-wrap: break-word;\n    overflow-wrap: break-word;\n    word-break: break-word;\n    hyphens: auto;\n    white-space: normal;\n\x7d\n\n/* 图表优化 */\n.chart-card \x7b\n"
  ++ "    min-height: "
  ++ toString cfg.chart.min_height
  ++ "px"
  ++ ";\n"
  ++ "    max-height: "
  ++ toString cfg.chart.max_height
  ++ "px"
  ++ ";\n"
  ++ "    padding: "
  ++ toString cfg.chart.padding
  ++ "px"
  ++ ";\n    break-inside: avoid;\n    page-break-inside: avoid;\n    /* 防止图表溢出 */\n    overflow: hidden;\n    max-width: 100%;\n    box-sizing: border-box;\n\x7d\n\n.chart-title \x7b\n"
  ++ "    font-size: "
  ++ toString cfg.chart.font_size_title
  ++ "px"
  ++ " !important;\n    word-break: break-word;\n\x7d\n\n/* Hero区域的KPI卡片 */\n"
  ++ ".hero-kpi \x7b\n"
  ++ "    padding: "
  ++ toString cfg.kpi_card.padding
  ++ "px"
  ++ " !important;\n    overflow: hidden;\n    box-sizing: border-box;\n\x7d\n\n"
  ++ ".hero-kpi .label \x7b\n"
  ++ "    font-size: "
  ++ toString cfg.kpi_card.font_size_label
  ++ "px"
  ++ " !important;\n    word-break: break-word;\n    max-width: 100%;\n\x7d\n\n"
  ++ ".hero-kpi .value \x7b\n"
  ++ "    font-size: "
  ++ toString cfg.kpi_card.font_size_value
  ++ "px"
  ++ " !important;\n    word-break: break-word;\n    overflow-wrap: break-word;\n    max-width: 100%;\n\x7d\n\n/* 防止标题孤行 */\nh1, h2, h3, h4, h5, h6 \x7b\n    break-after: avoid;\n    page-break-after: avoid;\n    word-break: break-word;\n    overflow-wrap: break-word;\n\x7d\n\n/* 确保内容块不被分页且不溢出 */\n.content-block \x7b\n    break-inside: avoid;\n    page-break-inside: avoid;\n    overflow: hidden;\n    max-width: 100%;\n\x7d\n\n/* 全局溢出防护 */\n* \x7b\n    box-sizing: border-box;\n    max-width: 100%;\n\x7d\n\n/* 特别控制数字和长单词 */\n.kpi-value, .value, .delta \x7b\n    font-variant-numeric: tabular-nums;\n    letter-spacing: -0.02em;  /* 稍微紧缩间距以节省空间 */\n\x7d\n\n/* 色块（badge）样式控制 */\n.badge, .callout \x7b\n    display: inline-block;\n    max-width: 100%;\n    overflow: hidden;\n    text-overflow: ellipsis;\n    white-space: normal;\n\x7d\n\n/* 响应式调整 */\n@media print \x7b\n    /* 打印时更严格的控制 */\n    * \x7b\n        overflow: visible !important;\n        max-width: 100% !important;\n    \x7d\n\n    .kpi-card, .callout, .chart-card \x7b\n        overflow: hidden !important;\n    \x7d\n\x7d\n"

/-- The spec's §4.4 row-1 KPI font-size computation with an explicit usable
width: solver over [18, 32] on a synthetic digit string; apply the solved
size when the solver had to shrink, else `min(28, solvedSize)` when the
length exceeds 10, else keep the baseline value. -/
def specKpiValueFontSizeAt (width : Int) (baseline : PDFLayoutConfig)
    (stats : DocumentStats) : Int :=
  let sample := String.mk (List.replicate stats.max_kpi_value_length '9')
  let r := calculate_safe_font_size sample width 18 32
  if r.2 then r.1
  else if stats.max_kpi_value_length > 10 then min 28 r.1
  else baseline.kpi_card.font_size_value

/-- The reading asserted by C4, following the spec's words: the KPI usable
width recomputed from the baseline configuration as
`(800 - gridGap)/2 - 2*padding` (second definition for the refinement
comparison; the source hard-codes `(800 - 20) // 2 - 40` instead). -/
def specKpiValueFontSize (baseline : PDFLayoutConfig) (stats : DocumentStats) : Int :=
  specKpiValueFontSizeAt ((800 - baseline.grid.gap) / 2 - 2 * baseline.kpi_card.padding)
    baseline stats

/-- `p` occurs as a contiguous substring of `s` (on the underlying character
lists). -/
@[reducible] def strContains (s p : String) : Prop :=
  p.data <:+: s.data

/-- Configuration for the C2 counterexample: default values except a
recognisable responsive breakpoint. -/
def c2cfg : PDFLayoutConfig :=
  { create_default_config with
    grid := { create_default_config.grid with responsive_breakpoint := 99999 } }

/-- Baseline for the C4 counterexample: grid gap 0 and KPI padding 0, so the
spec's formula gives usable width 400 while the source uses 350. -/
def c4Baseline : PDFLayoutConfig :=
  { create_default_config with
    grid := { create_default_config.grid with gap := 0 }
    kpi_card := { create_default_config.kpi_card with padding := 0 } }

/-- Stats for the C4 counterexample: a 20-digit KPI value (and a KPI count
that triggers no grid rule). -/
def c4Stats : DocumentStats :=
  { max_kpi_value_length := 20, kpi_count := 3 }

/-- The Scenario-A document of C7: one chapter whose single block is a
`kpiGrid` with one item of value `"123456789012"`. -/
def c7doc : Val :=
  .dict [("chapters", .list [.dict [("blocks", .list [.dict [("type", .str "kpiGrid"),
    ("items", .list [.dict [("value", .str "123456789012")]])]])]])]

/-- The stats `analyze_document` produces for `c7doc`. -/
def c7stats : DocumentStats :=
  { kpi_count := 1, max_kpi_value_length := 12 }

/-- The full result of one `optimize_for_document` run on the empty document
dict starting from the default optimizer (used to witness C10): zero stats,
so only the `kpi_count <= 2` rule fires. -/
def c10out : PDFLayoutOptimizer × PDFLayoutConfig × OptimizationLogEntry :=
  (mkOptimizer create_default_config,
    (adjust_config_based_on_stats create_default_config {}).1,
    ⟨{}, (adjust_config_based_on_stats create_default_config {}).2,
      to_dict (adjust_config_based_on_stats create_default_config {}).1⟩)

/-- If the descending scan returns a size, that size is in the scanned
window, it does not overflow, and every larger scanned size overflows. -/
theorem findFit_some_spec (T : String) (w : Int) :
    ∀ (k : Nat) (fs s : Int), findFit T w fs k = some s →
      fs - k < s ∧ s ≤ fs ∧ check_text_overflow T s w = false ∧
      ∀ t, s < t → t ≤ fs → check_text_overflow T t w = true := by
  intro k
  induction k with
  | zero => intro fs s h; simp [findFit] at h
  | succ n ih =>
    intro fs s h
    simp only [findFit] at h
    split at h
    case isTrue hov =>
      obtain ⟨h1, h2, h3, h4⟩ := ih (fs - 1) s h
      refine ⟨by omega, by omega, h3, ?_⟩
      intro t ht1 ht2
      by_cases hte : t ≤ fs - 1
      · exact h4 t ht1 hte
      · have : t = fs := by omega
        subst this
        exact hov
    case isFalse hov =>
      cases h
      refine ⟨by omega, le_refl _, by simpa using hov, ?_⟩
      intro t ht1 ht2
      omega

/-- If the descending scan fails, every size in the scanned window
overflows. -/
theorem findFit_none_spec (T : String) (w : Int) :
    ∀ (k : Nat) (fs : Int), findFit T w fs k = none →
      ∀ t, fs - k < t → t ≤ fs → check_text_overflow T t w = true := by
  intro k
  induction k with
  | zero => intro fs _ t ht1 ht2; omega
  | succ n ih =>
    intro fs h t ht1 ht2
    simp only [findFit] at h
    split at h
    case isTrue hov =>
      by_cases hte : t ≤ fs - 1
      · exact ih (fs - 1) h t (by omega) hte
      · have : t = fs := by omega
        subst this
        exact hov
    case isFalse hov => cases h

/-- C5: for `minSize <= maxSize`, `_calculate_safe_font_size` returns a size
within `[minSize, maxSize]`; empty text short-circuits to
`(maxSize, false)`; for nonempty text the result is either the largest size
in the range that does not overflow, with `adjusted = (size < maxSize)`, or
`(minSize, true)` when every size in the range overflows — it never
raises. -/
theorem c5_solver_spec (T : String) (w minFS maxFS : Int) (h : minFS ≤ maxFS) :
    (minFS ≤ (calculate_safe_font_size T w minFS maxFS).1 ∧
      (calculate_safe_font_size T w minFS maxFS).1 ≤ maxFS) ∧
    (T = "" → calculate_safe_font_size T w minFS maxFS = (maxFS, false)) ∧
    (T ≠ "" →
      (check_text_overflow T (calculate_safe_font_size T w minFS maxFS).1 w = false ∧
        (calculate_safe_font_size T w minFS maxFS).2 =
          decide ((calculate_safe_font_size T w minFS maxFS).1 < maxFS) ∧
        (∀ t, (calculate_safe_font_size T w minFS maxFS).1 < t → t ≤ maxFS →
          check_text_overflow T t w = true)) ∨
      (calculate_safe_font_size T w minFS maxFS = (minFS, true) ∧
        ∀ t, minFS ≤ t → t ≤ maxFS → check_text_overflow T t w = true)) := by
  by_cases hT : T = ""
  · subst hT
    simp only [calculate_safe_font_size, if_pos rfl]
    exact ⟨⟨h, le_refl _⟩, fun _ => rfl, fun hne => absurd rfl hne⟩
  · have hk : ((maxFS - minFS + 1).toNat : Int) = maxFS - minFS + 1 := by omega
    simp only [calculate_safe_font_size, if_neg hT]
    split
    next fs hf =>
      obtain ⟨h1, h2, h3, h4⟩ := findFit_some_spec T w _ _ _ hf
      rw [hk] at h1
      exact ⟨⟨show minFS ≤ fs by omega, h2⟩, fun he => absurd he hT,
        fun _ => Or.inl ⟨h3, rfl, fun t ht1 ht2 => h4 t ht1 ht2⟩⟩
    next hf =>
      have h5 := findFit_none_spec T w _ _ hf
      rw [hk] at h5
      exact ⟨⟨le_refl _, h⟩, fun he => absurd he hT,
        fun _ => Or.inr ⟨rfl, fun t ht1 ht2 => h5 t (by omega) ht2⟩⟩

/-- Witness for C5 at `T = "abc"`, `maxWidth = 100`, bounds [10, 32]. -/
theorem c5_solver_spec_witness :
    (10 : Int) ≤ 32 ∧
    ((10 ≤ (calculate_safe_font_size ("abc") 100 10 32).1 ∧
      (calculate_safe_font_size ("abc") 100 10 32).1 ≤ 32) ∧
    ("abc" = "" → calculate_safe_font_size ("abc") 100 10 32 = (32, false)) ∧
    ("abc" ≠ "" →
      (check_text_overflow ("abc") (calculate_safe_font_size ("abc") 100 10 32).1 100 = false ∧
        (calculate_safe_font_size ("abc") 100 10 32).2 =
          decide ((calculate_safe_font_size ("abc") 100 10 32).1 < 32) ∧
        (∀ t, (calculate_safe_font_size ("abc") 100 10 32).1 < t → t ≤ 32 →
          check_text_overflow ("abc") t 100 = true)) ∨
      (calculate_safe_font_size ("abc") 100 10 32 = (10, true) ∧
        ∀ t, 10 ≤ t → t ≤ 32 → check_text_overflow ("abc") t 100 = true))) :=
  ⟨by decide, c5_solver_spec ("abc") 100 10 32 (by decide)⟩

/-- C6 counterexample: at empty text and negative width the claimed identity
fails — the empty-text short-circuit returns `(S, false)` although
`isOverflowing("", S, -1)` is true (estimated width 0 exceeds -1). -/
theorem c6_counterexample :
    calculate_safe_font_size ("") (-1) 20 20 ≠ (20, check_text_overflow ("") 20 (-1)) := by
  decide

/-- C6 amended: `solveFontSize(T, maxWidth, S, S) = (S, isOverflowing(T, S,
maxWidth))` for every size `S`, provided the text is nonempty or the width
budget is nonnegative (the only exception is empty text with negative width,
where the short-circuit wins, per the counterexample). -/
theorem c6_amended (T : String) (w S : Int) (h : T ≠ "" ∨ 0 ≤ w) :
    calculate_safe_font_size T w S S = (S, check_text_overflow T S w) := by
  by_cases hT : T = ""
  · subst hT
    have hw : 0 ≤ w := h.resolve_left (fun hne => hne rfl)
    have hov : check_text_overflow ("") S w = false := by
      simp only [check_text_overflow, estimate_text_width, if_pos rfl]
      simp only [decide_eq_false_iff_not, not_lt]
      exact Int.mul_nonneg hw (by norm_num)
    simp [calculate_safe_font_size, hov]
  · have hk : (S - S + 1).toNat = 1 := by omega
    simp only [calculate_safe_font_size, if_neg hT, hk, findFit]
    by_cases hov : check_text_overflow T S w
    · simp [hov]
    · simp [hov]

/-- Witness for the amended C6 at `T = "x"`, `maxWidth = -5`, `S = 20`. -/
theorem c6_amended_witness :
    (("x" : String) ≠ "" ∨ (0 : Int) ≤ -5) ∧
    calculate_safe_font_size ("x") (-5) 20 20 = (20, check_text_overflow ("x") 20 (-5)) :=
  ⟨Or.inl (by decide), c6_amended ("x") (-5) 20 (Or.inl (by decide))⟩

/-- C1 counterexample: a tree whose chapter entry is the bare string `"x"`
makes the analyzer raise (`AttributeError` at `chapter.get`, since
`_analyze_document` passes chapter entries to `_analyze_chapter` without an
isinstance guard), refuting the claim that `analyze` never raises on
malformed input. -/
theorem c1_counterexample :
    analyze_document (.dict [("chapters", .list [.str "x"])]) = .error () := by
  simp [analyze_document, analyze_chapter, analyzeBlockList, analyze_block,
    dictGetD, alistLookup, pyIter, pyTruthy, List.foldlM, Bind.bind, Except.bind]

/-- C1 amended: the silent-skip guarantee holds at the block level — a block
that is not a record is skipped by `_analyze_block` with no count
contribution and no exception — but not for arbitrary malformed trees: a
bare-string chapter entry (or a non-record KPI item) raises, per the
counterexample. -/
theorem c1_amended (block : Val) (stats : DocumentStats)
    (h : ∀ xs, block ≠ Val.dict xs) :
    analyze_block block stats = .ok stats := by
  cases block with
  | dict xs => exact absurd rfl (h xs)
  | str s => simp [analyze_block]
  | int n => simp [analyze_block]
  | float10 n => simp [analyze_block]
  | bool b => simp [analyze_block]
  | pynone => simp [analyze_block]
  | list xs => simp [analyze_block]

/-- Witness for the amended C1 at the non-record block `"x"`. -/
theorem c1_amended_witness :
    (∀ xs, Val.str ("x") ≠ Val.dict xs) ∧
    analyze_block (Val.str ("x")) {} = .ok ({} : DocumentStats) :=
  ⟨fun _ h => Val.noConfusion h, c1_amended _ _ (fun _ h => Val.noConfusion h)⟩

/-- The KPI font-size rule touches only `kpi_card.font_size_value`: grid and
KPI padding pass through. -/
theorem applyKpiFontSizeRule_preserves (stats : DocumentStats)
    (cl : PDFLayoutConfig × List String) :
    (applyKpiFontSizeRule stats cl).1.grid = cl.1.grid ∧
    (applyKpiFontSizeRule stats cl).1.kpi_card.padding = cl.1.kpi_card.padding := by
  simp only [applyKpiFontSizeRule]
  split_ifs <;> exact ⟨rfl, rfl⟩

/-- The grid-columns rule never changes `kpi_card.font_size_value`. -/
theorem applyGridColumnsRule_fsv (stats : DocumentStats)
    (cl : PDFLayoutConfig × List String) :
    (applyGridColumnsRule stats cl).1.kpi_card.font_size_value =
      cl.1.kpi_card.font_size_value := by
  simp only [applyGridColumnsRule]
  split_ifs <;> rfl

/-- The table rule leaves the grid and KPI-card sub-configurations alone. -/
theorem applyTableColumnsRule_preserves (stats : DocumentStats)
    (cl : PDFLayoutConfig × List String) :
    (applyTableColumnsRule stats cl).1.grid = cl.1.grid ∧
    (applyTableColumnsRule stats cl).1.kpi_card = cl.1.kpi_card := by
  simp only [applyTableColumnsRule]
  split_ifs <;> exact ⟨rfl, rfl⟩

/-- The long-text rule leaves the grid and KPI-card sub-configurations
alone. -/
theorem applyLongTextRule_preserves (stats : DocumentStats)
    (cl : PDFLayoutConfig × List String) :
    (applyLongTextRule stats cl).1.grid = cl.1.grid ∧
    (applyLongTextRule stats cl).1.kpi_card = cl.1.kpi_card := by
  simp only [applyLongTextRule]
  split_ifs <;> exact ⟨rfl, rfl⟩

/-- The dense-content rule leaves the grid and KPI-card sub-configurations
alone. -/
theorem applyDenseContentRule_preserves (stats : DocumentStats)
    (cl : PDFLayoutConfig × List String) :
    (applyDenseContentRule stats cl).1.grid = cl.1.grid ∧
    (applyDenseContentRule stats cl).1.kpi_card = cl.1.kpi_card := by
  simp only [applyDenseContentRule]
  split_ifs <;> exact ⟨rfl, rfl⟩

/-- Grid columns and KPI padding of the final configuration are decided by
the grid-columns rule's output. -/
theorem adjust_grid_kpi_padding (baseline : PDFLayoutConfig) (stats : DocumentStats) :
    (adjust_config_based_on_stats baseline stats).1.grid.columns =
      (applyGridColumnsRule stats (applyKpiFontSizeRule stats (baseline, []))).1.grid.columns ∧
    (adjust_config_based_on_stats baseline stats).1.kpi_card.padding =
      (applyGridColumnsRule stats (applyKpiFontSizeRule stats (baseline, []))).1.kpi_card.padding := by
  unfold adjust_config_based_on_stats
  obtain ⟨hd1, hd2⟩ := applyDenseContentRule_preserves stats
    (applyLongTextRule stats (applyTableColumnsRule stats
      (applyGridColumnsRule stats (applyKpiFontSizeRule stats (baseline, [])))))
  obtain ⟨hl1, hl2⟩ := applyLongTextRule_preserves stats
    (applyTableColumnsRule stats
      (applyGridColumnsRule stats (applyKpiFontSizeRule stats (baseline, []))))
  obtain ⟨ht1, ht2⟩ := applyTableColumnsRule_preserves stats
    (applyGridColumnsRule stats (applyKpiFontSizeRule stats (baseline, [])))
  rw [hd1, hl1, ht1, hd2, hl2, ht2]
  exact ⟨rfl, rfl⟩

/-- C3 counterexample: for zero-KPI stats the `kpi_count <= 2` branch still
fires (0 <= 2), so Grid.columns and KPICard.padding do not stay at their
baseline values 2 and 20 — they become 1 and 24. -/
theorem c3_counterexample :
    (adjust_config_based_on_stats create_default_config {}).1.grid.columns = 1 ∧
    (adjust_config_based_on_stats create_default_config {}).1.kpi_card.padding = 24 ∧
    create_default_config.grid.columns = 2 ∧
    create_default_config.kpi_card.padding = 20 := by
  decide

/-- C3 amended: the 1-column rule triggers exactly when `kpiCount <= 2`,
including `kpiCount = 0` (the source's elif chain has no positivity guard);
for `kpiCount` of 3 or 4 no grid rule fires and both fields keep their
baseline values. -/
theorem c3_amended (baseline : PDFLayoutConfig) (stats : DocumentStats) :
    (stats.kpi_count ≤ 2 →
      (adjust_config_based_on_stats baseline stats).1.grid.columns = 1 ∧
      (adjust_config_based_on_stats baseline stats).1.kpi_card.padding = 24) ∧
    (stats.kpi_count = 3 ∨ stats.kpi_count = 4 →
      (adjust_config_based_on_stats baseline stats).1.grid.columns = baseline.grid.columns ∧
      (adjust_config_based_on_stats baseline stats).1.kpi_card.padding =
        baseline.kpi_card.padding) := by
  obtain ⟨hc, hp⟩ := adjust_grid_kpi_padding baseline stats
  obtain ⟨hk1, hk2⟩ := applyKpiFontSizeRule_preserves stats (baseline, [])
  constructor
  · intro h
    rw [hc, hp]
    simp only [applyGridColumnsRule]
    rw [if_neg (by omega), if_neg (by omega), if_pos (by omega)]
    exact ⟨rfl, rfl⟩
  · intro h
    rw [hc, hp]
    simp only [applyGridColumnsRule]
    rw [if_neg (by omega), if_neg (by omega), if_neg (by omega)]
    rw [show ((applyKpiFontSizeRule stats (baseline, [])).1.grid.columns =
      baseline.grid.columns) from by rw [hk1], hk2]
    exact ⟨rfl, rfl⟩

/-- Witness for the amended C3: `kpiCount = 0` triggers the rule and
`kpiCount = 3` leaves the default baseline untouched. -/
theorem c3_amended_witness :
    ((0 : Nat) ≤ 2 ∧
      (adjust_config_based_on_stats create_default_config {}).1.grid.columns = 1 ∧
      (adjust_config_based_on_stats create_default_config {}).1.kpi_card.padding = 24) ∧
    (((3 : Nat) = 3 ∨ (3 : Nat) = 4) ∧
      (adjust_config_based_on_stats create_default_config
        { kpi_count := 3 }).1.grid.columns = create_default_config.grid.columns ∧
      (adjust_config_based_on_stats create_default_config
        { kpi_count := 3 }).1.kpi_card.padding = create_default_config.kpi_card.padding) :=
  ⟨⟨by decide, (c3_amended create_default_config {}).1 (by decide)⟩,
    ⟨Or.inl rfl, (c3_amended create_default_config { kpi_count := 3 }).2 (Or.inl rfl)⟩⟩

/-- C4 counterexample: with baseline gap 0 and KPI padding 0 and a 20-digit
KPI value, the engine solves against its hard-coded width 350 and yields
font size 29, while the spec's baseline-derived width (800-0)/2 - 0 = 400
would yield 28 — so the engine does not use the baseline-derived width. -/
theorem c4_counterexample :
    c4Stats.max_kpi_value_length > 0 ∧
    (adjust_config_based_on_stats c4Baseline c4Stats).1.kpi_card.font_size_value = 29 ∧
    specKpiValueFontSize c4Baseline c4Stats = 28 ∧
    (adjust_config_based_on_stats c4Baseline c4Stats).1.kpi_card.font_size_value ≠
      specKpiValueFontSize c4Baseline c4Stats := by
  decide

/-- C4 amended: when `maxKpiValueLength > 0` the engine runs the solver with
bounds [18, 32] against the constant usable width `(800 - 20) // 2 - 40 =
350` for every baseline — equivalently, the resulting KPI value font size
matches the spec's rule evaluated at width 350 and is invariant under any
change of the baseline's Grid.gap and KPICard.padding. -/
theorem c4_amended (baseline : PDFLayoutConfig) (stats : DocumentStats)
    (h : stats.max_kpi_value_length > 0) :
    (adjust_config_based_on_stats baseline stats).1.kpi_card.font_size_value =
      specKpiValueFontSizeAt ((800 - 20) / 2 - 40) baseline stats ∧
    ∀ g p, (adjust_config_based_on_stats
        { baseline with
          grid := { baseline.grid with gap := g }
          kpi_card := { baseline.kpi_card with padding := p } } stats).1.kpi_card.font_size_value =
      (adjust_config_based_on_stats baseline stats).1.kpi_card.font_size_value := by
  have key : ∀ b : PDFLayoutConfig,
      (adjust_config_based_on_stats b stats).1.kpi_card.font_size_value =
        specKpiValueFontSizeAt ((800 - 20) / 2 - 40) b stats := by
    intro b
    have hfsv : (adjust_config_based_on_stats b stats).1.kpi_card.font_size_value =
        (applyKpiFontSizeRule stats (b, [])).1.kpi_card.font_size_value := by
      unfold adjust_config_based_on_stats
      obtain ⟨_, hd⟩ := applyDenseContentRule_preserves stats
        (applyLongTextRule stats (applyTableColumnsRule stats
          (applyGridColumnsRule stats (applyKpiFontSizeRule stats (b, [])))))
      obtain ⟨_, hl⟩ := applyLongTextRule_preserves stats
        (applyTableColumnsRule stats
          (applyGridColumnsRule stats (applyKpiFontSizeRule stats (b, []))))
      obtain ⟨_, ht⟩ := applyTableColumnsRule_preserves stats
        (applyGridColumnsRule stats (applyKpiFontSizeRule stats (b, [])))
      rw [hd, hl, ht, applyGridColumnsRule_fsv]
    rw [hfsv]
    simp only [applyKpiFontSizeRule, specKpiValueFontSizeAt, if_pos h]
    split_ifs <;> rfl
  refine ⟨key baseline, fun g p => ?_⟩
  rw [key { baseline with
    grid := { baseline.grid with gap := g }
    kpi_card := { baseline.kpi_card with padding := p } }, key baseline]
  rfl

/-- Witness for the amended C4 at the default baseline and a 20-digit KPI
value. -/
theorem c4_amended_witness :
    c4Stats.max_kpi_value_length > 0 ∧
    ((adjust_config_based_on_stats create_default_config c4Stats).1.kpi_card.font_size_value =
      specKpiValueFontSizeAt ((800 - 20) / 2 - 40) create_default_config c4Stats ∧
    ∀ g p, (adjust_config_based_on_stats
        { create_default_config with
          grid := { create_default_config.grid with gap := g }
          kpi_card := { create_default_config.kpi_card with padding := p } }
        c4Stats).1.kpi_card.font_size_value =
      (adjust_config_based_on_stats create_default_config c4Stats).1.kpi_card.font_size_value) :=
  ⟨by decide, c4_amended create_default_config c4Stats (by decide)⟩

/-- C7 (Scenario A, confirmed): analysis of the single-KPI document with
value `"123456789012"` yields `maxKpiValueLength = 12`; the solver at width
350 over [18, 32] finds 32 with no adjustment; and since 12 > 10 the
precaution rule leaves `min(28, 32) = 28` as the final
KPICard.valueFontSize. -/
theorem c7_scenario_a :
    analyze_document c7doc = .ok c7stats ∧
    c7stats.max_kpi_value_length = 12 ∧
    calculate_safe_font_size (String.mk (List.replicate 12 '9')) 350 18 32 = (32, false) ∧
    (adjust_config_based_on_stats create_default_config c7stats).1.kpi_card.font_size_value
      = 28 := by
  refine ⟨?_, by decide, by decide, by decide⟩
  simp [c7doc, c7stats, analyze_document, analyze_chapter, analyzeBlockList, analyze_block,
    analyzeBlockCore, kpiItemUpdate, dictGetD, alistLookup, pyIter, pyLen, pyStr, pyTruthy,
    isStrVal, List.foldlM, Bind.bind, Except.bind]
  rfl

/-- C8 (confirmed): saving any configuration (with or without an attached
optimization-log entry) and loading it back reproduces the configuration
field-for-field — all six sub-configurations and the four flags — for every
path. -/
theorem c8_round_trip (path : String) (c : PDFLayoutConfig) (log_entry : Option Val) :
    load_config (some (save_config path (mkOptimizer c) log_entry)) =
      .ok (mkOptimizer c) := by
  cases log_entry <;> rfl

/-- C9 (confirmed): an optimization pass never changes `self.config` — the
post-state configuration equals the pre-state configuration whenever the
pass succeeds — and the configuration it returns depends only on the
baseline configuration and the document, not on the accumulated log state.
(The source builds the returned configuration from fresh sub-records, lines
444-455, which is what justifies this value-level embedding of the
in-place field assignments that follow.) -/
theorem c9_baseline_immutable (cfg : PDFLayoutConfig) (log1 log2 : List String) (ir : Val) :
    (optimize_for_document ⟨cfg, log1⟩ ir).map (fun out => out.1.config) =
      (optimize_for_document ⟨cfg, log1⟩ ir).map (fun _ => cfg) ∧
    (optimize_for_document ⟨cfg, log1⟩ ir).map (fun out => out.2.1) =
      (optimize_for_document ⟨cfg, log2⟩ ir).map (fun out => out.2.1) := by
  cases h : analyze_document ir <;>
    simp [optimize_for_document, log_optimization, h, Except.map, Bind.bind, Except.bind]

/-- C10 (confirmed): `_log_optimization` clears the log, so after every
successful `optimize_for_document` call the optimizer's log list is empty;
consequently two consecutive calls from an empty-log state whose documents
analyze to identical stats record identical ordered adjustment lists in
their log entries. -/
theorem c10_log_reset :
    (∀ (st : PDFLayoutOptimizer) (ir : Val)
        (out : PDFLayoutOptimizer × PDFLayoutConfig × OptimizationLogEntry),
        optimize_for_document st ir = .ok out → out.1.optimization_log = []) ∧
    (∀ (cfg : PDFLayoutConfig) (ir₁ ir₂ : Val)
        (out₁ out₂ : PDFLayoutOptimizer × PDFLayoutConfig × OptimizationLogEntry),
        optimize_for_document ⟨cfg, []⟩ ir₁ = .ok out₁ →
        optimize_for_document out₁.1 ir₂ = .ok out₂ →
        out₁.2.2.document_stats = out₂.2.2.document_stats →
        out₁.2.2.optimizations = out₂.2.2.optimizations) := by
  constructor
  · intro st ir out h
    cases ha : analyze_document ir <;>
      simp [optimize_for_document, log_optimization, ha, Bind.bind, Except.bind] at h
    rw [← h]
  · intro cfg ir₁ ir₂ out₁ out₂ h1 h2 hstats
    cases ha1 : analyze_document ir₁ <;>
      simp [optimize_for_document, log_optimization, ha1, Bind.bind, Except.bind] at h1
    rw [← h1] at h2 hstats ⊢
    cases ha2 : analyze_document ir₂ <;>
      simp [optimize_for_document, log_optimization, ha2, Bind.bind, Except.bind] at h2
    rw [← h2] at hstats ⊢
    simp at hstats ⊢
    rw [hstats]

/-- Witness for C10: two optimization runs on the empty document dict from
the default optimizer. -/
theorem c10_log_reset_witness :
    c10out.1.optimization_log = [] ∧
    c10out.2.2.optimizations = c10out.2.2.optimizations := by
  have ha : analyze_document (.dict []) = .ok ({} : DocumentStats) := by
    simp [analyze_document, dictGetD, alistLookup, pyIter, pyTruthy, List.foldlM,
      Bind.bind, Except.bind]
    rfl
  have hrun : optimize_for_document ⟨create_default_config, []⟩ (.dict []) = .ok c10out := by
    simp [optimize_for_document, log_optimization, ha, Bind.bind, Except.bind, c10out,
      mkOptimizer]
  exact ⟨c10_log_reset.1 ⟨create_default_config, []⟩ (.dict []) c10out hrun,
    c10_log_reset.2 create_default_config (.dict []) (.dict []) c10out c10out hrun hrun rfl⟩

/-- Substring containment is preserved by appending on the right. -/
theorem scont_right (y : String) {s p : String} (h : strContains s p) :
    strContains (s ++ y) p := by
  obtain ⟨u, v, huv⟩ := h
  exact ⟨u, v ++ y.data, by rw [String.data_append, ← huv]; simp [List.append_assoc]⟩

/-- The last three chunks of a (left-associated) concatenation chain form a
contained substring. -/
theorem scont_tail3 (a x y z : String) :
    strContains (a ++ x ++ y ++ z) (x ++ y ++ z) :=
  ⟨a.data, [], by simp [String.data_append, List.append_assoc]⟩

/-- The last four chunks of a concatenation chain form a contained
substring. -/
theorem scont_tail4 (a w x y z : String) :
    strContains (a ++ w ++ x ++ y ++ z) (w ++ x ++ y ++ z) :=
  ⟨a.data, [], by simp [String.data_append, List.append_assoc]⟩

/-- The last eight chunks of a concatenation chain form a contained
substring. -/
theorem scont_tail8 (a s1 s2 s3 s4 s5 s6 s7 s8 : String) :
    strContains (a ++ s1 ++ s2 ++ s3 ++ s4 ++ s5 ++ s6 ++ s7 ++ s8)
      (s1 ++ s2 ++ s3 ++ s4 ++ s5 ++ s6 ++ s7 ++ s8) :=
  ⟨a.data, [], by simp [String.data_append, List.append_assoc]⟩

/-- Every character of a contained substring occurs in the containing
string. -/
theorem scont_mem {s p : String} (h : strContains s p) {c : Char}
    (hc : c ∈ p.data) : c ∈ s.data := by
  obtain ⟨u, v, huv⟩ := h
  rw [← huv]
  simp [hc]

/-- C2 counterexample: the responsive breakpoint 99999 appears in no
declaration of the emitted stylesheet at all (the digit 9 does not even
occur in the output), refuting "no numeric field is dropped". -/
theorem c2_counterexample :
    c2cfg.grid.responsive_breakpoint = 99999 ∧
    ¬ strContains (generate_pdf_css c2cfg) (toString c2cfg.grid.responsive_breakpoint) := by
  refine ⟨rfl, fun h => ?_⟩
  have h9 : '9' ∈ (toString c2cfg.grid.responsive_breakpoint).data := by decide
  have habs : '9' ∉ (generate_pdf_css c2cfg).data := by decide
  exact habs (scont_mem h h9)

/-- C2 amended: the emitted stylesheet is entirely independent of
KPICard.valueMaxLength, Chart.labelFontSize and Grid.responsiveBreakpoint
(those three numeric fields are dropped), and every other numeric field
appears verbatim in its declaration — with KPICard.padding,
KPICard.valueFontSize, KPICard.labelFontSize and Table.cellPadding each
appearing in two declarations (`.kpi-card`/`.hero-kpi`, `th`/`td`) rather
than exactly one. -/
theorem c2_amended (cfg : PDFLayoutConfig) :
    (∀ n : Int, generate_pdf_css { cfg with
        kpi_card := { cfg.kpi_card with value_max_length := n } } = generate_pdf_css cfg) ∧
    (∀ n : Int, generate_pdf_css { cfg with
        chart := { cfg.chart with font_size_label := n } } = generate_pdf_css cfg) ∧
    (∀ n : Int, generate_pdf_css { cfg with
        grid := { cfg.grid with responsive_breakpoint := n } } = generate_pdf_css cfg) ∧
    strContains (generate_pdf_css cfg)
      ("    font-size: " ++ toString cfg.page.font_size_base ++ "px") ∧
    strContains (generate_pdf_css cfg)
      ("    line-height: " ++ floatStr cfg.page.line_height ++ ";") ∧
    strContains (generate_pdf_css cfg)
      ("    padding: " ++ toString cfg.page.page_padding ++ "px") ∧
    strContains (generate_pdf_css cfg)
      ("    max-width: " ++ toString cfg.page.max_content_width ++ "px") ∧
    strContains (generate_pdf_css cfg)
      ("h1 \x7b font-size: " ++ toString cfg.page.font_size_h1 ++ "px") ∧
    strContains (generate_pdf_css cfg)
      ("h2 \x7b font-size: " ++ toString cfg.page.font_size_h2 ++ "px") ∧
    strContains (generate_pdf_css cfg)
      ("h3 \x7b font-size: " ++ toString cfg.page.font_size_h3 ++ "px") ∧
    strContains (generate_pdf_css cfg)
      ("h4 \x7b font-size: " ++ toString cfg.page.font_size_h4 ++ "px") ∧
    strContains (generate_pdf_css cfg)
      ("    margin-bottom: " ++ toString cfg.page.paragraph_spacing ++ "px") ∧
    strContains (generate_pdf_css cfg)
      ("    margin-bottom: " ++ toString cfg.page.section_spacing ++ "px") ∧
    strContains (generate_pdf_css cfg)
      ("    grid-template-columns: repeat(" ++ toString cfg.grid.columns ++ ", 1fr)") ∧
    strContains (generate_pdf_css cfg)
      ("    gap: " ++ toString cfg.grid.gap ++ "px") ∧
    strContains (generate_pdf_css cfg)
      ("    min-height: " ++ toString cfg.kpi_card.min_height ++ "px") ∧
    strContains (generate_pdf_css cfg)
      ("    font-size: " ++ toString cfg.kpi_card.font_size_change ++ "px") ∧
    strContains (generate_pdf_css cfg)
      ("    padding: " ++ toString cfg.callout.padding ++ "px") ∧
    strContains (generate_pdf_css cfg)
      ("    line-height: " ++ floatStr cfg.callout.line_height ++ ";") ∧
    strContains (generate_pdf_css cfg)
      ("    font-size: " ++ toString cfg.callout.font_size_title ++ "px") ∧
    strContains (generate_pdf_css cfg)
      ("    font-size: " ++ toString cfg.callout.font_size_content ++ "px") ∧
    strContains (generate_pdf_css cfg)
      ("    max-width: " ++ toString cfg.table.max_cell_width ++ "px") ∧
    strContains (generate_pdf_css cfg)
      ("    min-height: " ++ toString cfg.chart.min_height ++ "px") ∧
    strContains (generate_pdf_css cfg)
      ("    max-height: " ++ toString cfg.chart.max_height ++ "px") ∧
    strContains (generate_pdf_css cfg)
      ("    padding: " ++ toString cfg.chart.padding ++ "px") ∧
    strContains (generate_pdf_css cfg)
      ("    font-size: " ++ toString cfg.chart.font_size_title ++ "px") ∧
    strContains (generate_pdf_css cfg)
      (".kpi-card \x7b\n" ++ "    padding: " ++ toString cfg.kpi_card.padding ++ "px") ∧
    strContains (generate_pdf_css cfg)
      (".hero-kpi \x7b\n" ++ "    padding: " ++ toString cfg.kpi_card.padding ++ "px") ∧
    strContains (generate_pdf_css cfg)
      (".kpi-card .value \x7b\n" ++ "    font-size: " ++ toString cfg.kpi_card.font_size_value ++ "px") ∧
    strContains (generate_pdf_css cfg)
      (".hero-kpi .value \x7b\n" ++ "    font-size: " ++ toString cfg.kpi_card.font_size_value ++ "px") ∧
    strContains (generate_pdf_css cfg)
      (".kpi-card .label \x7b\n" ++ "    font-size: " ++ toString cfg.kpi_card.font_size_label ++ "px") ∧
    strContains (generate_pdf_css cfg)
      (".hero-kpi .label \x7b\n" ++ "    font-size: " ++ toString cfg.kpi_card.font_size_label ++ "px") ∧
    strContains (generate_pdf_css cfg)
      ("th \x7b\n" ++ "    font-size: " ++ toString cfg.table.font_size_header ++ "px" ++ " !important;\n" ++ "    padding: " ++ toString cfg.table.cell_padding ++ "px") ∧
    strContains (generate_pdf_css cfg)
      ("td \x7b\n" ++ "    font-size: " ++ toString cfg.table.font_size_body ++ "px" ++ " !important;\n" ++ "    padding: " ++ toString cfg.table.cell_padding ++ "px") := by
  refine ⟨fun _ => rfl, fun _ => rfl, fun _ => rfl, ?_, ?_, ?_, ?_, ?_, ?_, ?_, ?_, ?_, ?_, ?_, ?_, ?_, ?_, ?_, ?_, ?_, ?_, ?_, ?_, ?_, ?_, ?_, ?_, ?_, ?_, ?_, ?_, ?_, ?_, ?_⟩
  · unfold generate_pdf_css
    iterate 137 apply scont_right
    apply scont_tail3
  · unfold generate_pdf_css
    iterate 133 apply scont_right
    apply scont_tail3
  · unfold generate_pdf_css
    iterate 129 apply scont_right
    apply scont_tail3
  · unfold generate_pdf_css
    iterate 125 apply scont_right
    apply scont_tail3
  · unfold generate_pdf_css
    iterate 121 apply scont_right
    apply scont_tail3
  · unfold generate_pdf_css
    iterate 117 apply scont_right
    apply scont_tail3
  · unfold generate_pdf_css
    iterate 113 apply scont_right
    apply scont_tail3
  · unfold generate_pdf_css
    iterate 109 apply scont_right
    apply scont_tail3
  · unfold generate_pdf_css
    iterate 105 apply scont_right
    apply scont_tail3
  · unfold generate_pdf_css
    iterate 101 apply scont_right
    apply scont_tail3
  · unfold generate_pdf_css
    iterate 97 apply scont_right
    apply scont_tail3
  · unfold generate_pdf_css
    iterate 93 apply scont_right
    apply scont_tail3
  · unfold generate_pdf_css
    iterate 84 apply scont_right
    apply scont_tail3
  · unfold generate_pdf_css
    iterate 70 apply scont_right
    apply scont_tail3
  · unfold generate_pdf_css
    iterate 66 apply scont_right
    apply scont_tail3
  · unfold generate_pdf_css
    iterate 62 apply scont_right
    apply scont_tail3
  · unfold generate_pdf_css
    iterate 58 apply scont_right
    apply scont_tail3
  · unfold generate_pdf_css
    iterate 54 apply scont_right
    apply scont_tail3
  · unfold generate_pdf_css
    iterate 32 apply scont_right
    apply scont_tail3
  · unfold generate_pdf_css
    iterate 28 apply scont_right
    apply scont_tail3
  · unfold generate_pdf_css
    iterate 24 apply scont_right
    apply scont_tail3
  · unfold generate_pdf_css
    iterate 20 apply scont_right
    apply scont_tail3
  · unfold generate_pdf_css
    iterate 16 apply scont_right
    apply scont_tail3
  · unfold generate_pdf_css
    iterate 88 apply scont_right
    apply scont_tail4
  · unfold generate_pdf_css
    iterate 11 apply scont_right
    apply scont_tail4
  · unfold generate_pdf_css
    iterate 79 apply scont_right
    apply scont_tail4
  · unfold generate_pdf_css
    iterate 1 apply scont_right
    apply scont_tail4
  · unfold generate_pdf_css
    iterate 74 apply scont_right
    apply scont_tail4
  · unfold generate_pdf_css
    iterate 6 apply scont_right
    apply scont_tail4
  · unfold generate_pdf_css
    iterate 45 apply scont_right
    apply scont_tail8
  · unfold generate_pdf_css
    iterate 36 apply scont_right
    apply scont_tail8
